import Mathlib

/-!
Verification of the autorec remote-session / job-coordination layer.

This file gives a shallow embedding, in Lean, of the parts of
`ar_lib/JobManager.py` and `ar_lib/ssh.py` that the specification's
testable properties talk about, and proves (or refutes) each property
against that embedding.  Machine-level concerns (actual ssh processes,
the local filesystem, wall-clock sleeps) are modelled as explicit
parameters or recorded effects; the control flow of each translated
function follows the Python source line by line.
-/

namespace Autorec

/-! ## Posix path primitives

`JobManager.enter_dir` resolves paths with `posixpath.join` and
`posixpath.normpath`.  These are faithful translations of the CPython
`posixpath` implementations, restricted to `str` arguments.
-/

/-- Index of the last `/` in a character list (Python `str.rfind('/')`),
or `none` when there is no slash. -/
def rfindSlash : List Char → Option Nat
  | [] => none
  | c :: rest =>
    match rfindSlash rest with
    | some n => some (n + 1)
    | none => if c = '/' then some 0 else none

/-- Does the string begin with the character `c`?  (Structural stand-in
for `str.startswith` on a one-character needle.) -/
def headIs (s : String) (c : Char) : Bool :=
  match s.data with
  | [] => false
  | d :: _ => d = c

/-- Does the string end with the character `c`? -/
def lastIs (s : String) (c : Char) : Bool :=
  match s.data.getLast? with
  | none => false
  | some d => d = c

/-- Python `str.split('/')`: split at every slash, keeping empty pieces. -/
def splitSlashAux : List Char → List Char → List String
  | [], cur => [String.mk cur.reverse]
  | c :: rest, cur =>
    if c = '/' then String.mk cur.reverse :: splitSlashAux rest []
    else splitSlashAux rest (c :: cur)

/-- Python `str.split('/')` on a string. -/
def splitSlash (s : String) : List String := splitSlashAux s.data []

/-- Python `posixpath.join(a, b)` for two components: if `b` is absolute it
replaces `a`; otherwise it is appended with a separating `/` unless `a`
is empty or already ends in `/`. -/
def pjoin (a b : String) : String :=
  if headIs b '/' then b
  else if a = "" ∨ lastIs a '/' then a ++ b
  else a ++ "/" ++ b

/-- The component loop of `posixpath.normpath`: `slashes` is the number of
leading slashes kept (0, 1 or 2), `acc` holds the emitted components in
reverse.  Empty components and `.` are dropped; `..` pops the previous
component unless the path is relative and empty so far, or the previous
component is itself `..`. -/
def normComps (slashes : Nat) : List String → List String → List String
  | acc, [] => acc.reverse
  | acc, c :: rest =>
    if c = "" ∨ c = "." then normComps slashes acc rest
    else if c ≠ ".." ∨ (slashes = 0 ∧ acc = []) ∨ acc.headD "" = ".." then
      normComps slashes (c :: acc) rest
    else
      match acc with
      | [] => normComps slashes [] rest
      | _ :: acc2 => normComps slashes acc2 rest

/-- Join components with `/` between them (Python `'/'.join`). -/
def joinSlash : List String → String
  | [] => ""
  | [s] => s
  | s :: rest => s ++ "/" ++ joinSlash rest

/-- Python `posixpath.normpath`. -/
def normpath (p : String) : String :=
  if p = "" then "." else
  let slashes : Nat :=
    match p.data with
    | '/' :: '/' :: '/' :: _ => 1
    | '/' :: '/' :: _ => 2
    | '/' :: _ => 1
    | _ => 0
  let comps := normComps slashes [] (splitSlash p)
  let res := String.mk (List.replicate slashes '/') ++ joinSlash comps
  if res = "" then "." else res

/-- Python `posixpath.dirname`: everything up to the last `/`, with
trailing slashes stripped unless the head consists only of slashes. -/
def pdirname (p : String) : String :=
  match rfindSlash p.data with
  | none => ""
  | some i =>
    let head := p.data.take (i + 1)
    if head.all (fun c => c = '/') then String.mk head
    else String.mk ((head.reverse.dropWhile (fun c => c = '/')).reverse)

/-- Strip trailing `/` characters, as the `while dir_name[-1:] == '/'`
loop at the top of `enter_dir` does. -/
def dropTrailingSlashes (s : String) : String :=
  String.mk ((s.data.reverse.dropWhile (fun c => c = '/')).reverse)

/-! ## `JobManager.enter_dir` (JobManager.py lines 611-663)

The session keeps a `base` directory (recorded at connection time) and a
current directory `cwd`.  The remote probes (`test -x ∧ -w`, `mkdir -p`)
are modelled by boolean oracles `probe` and `mkdirOk` indexed by the
remote path.
-/

/-- Working-directory state of a `JobManager` session. -/
structure DirState where
  base : String
  cwd : String
deriving DecidableEq, Repr

/-- The errors `enter_dir` can raise (all `SessionError` in the source,
distinguished here by their message). -/
inductive EnterErr where
  | spaces
  | escape
  | pathMissing (p : String)
  | cannotCreate (p : String)
deriving DecidableEq, Repr

/-- One `test -x '{p}' -a -w '{p}'` / `mkdir -p '{p}'` round of the
`for (pth, create) in zip(...)` loop body of `enter_dir`. -/
def checkOrCreate (probe mkdirOk : String → Bool) (p : String) (create : Bool) :
    Except EnterErr Unit :=
  if probe p then Except.ok ()
  else if create then
    if mkdirOk p then Except.ok ()
    else Except.error (EnterErr.cannotCreate p)
  else Except.error (EnterErr.pathMissing p)

/-- `JobManager.enter_dir`.  Returns the state after the call together
with the outcome; on an exception the state records any mutation of
`cwd` that already happened (the source assigns `self.cwd = self.base`
for absolute arguments before the confinement check). -/
def enter_dir (probe mkdirOk : String → Bool) (st : DirState) (dirName : String)
    (createDir : Bool := true) (createParents : Bool := false) :
    DirState × Except EnterErr String :=
  let dn := dropTrailingSlashes dirName
  if dn = "" then (st, Except.ok st.cwd)
  else if dn.data.contains ' ' then (st, Except.error EnterErr.spaces)
  else
    let cwd1 := if headIs dn '/' then st.base else st.cwd
    let dn1 := if headIs dn '/' then String.mk (dn.data.drop 1) else dn
    let resolved := normpath (pjoin cwd1 dn1)
    if resolved.length < st.base.length then
      ({ st with cwd := cwd1 }, Except.error EnterErr.escape)
    else
      let head := pdirname resolved
      match checkOrCreate probe mkdirOk head createParents with
      | Except.error e => ({ st with cwd := cwd1 }, Except.error e)
      | Except.ok _ =>
        match checkOrCreate probe mkdirOk resolved createDir with
        | Except.error e => ({ st with cwd := cwd1 }, Except.error e)
        | Except.ok _ => ({ st with cwd := resolved }, Except.ok resolved)

/-- Boolean character-list test: the first list starts the second. -/
def leadsList : List Char → List Char → Bool
  | [], _ => true
  | _ :: _, [] => false
  | a :: as2, b :: bs => a = b && leadsList as2 bs

/-- The property the specification asserts: the resolved path stays a
descendant of (or equal to) the session base. -/
def isDescendantOf (base p : String) : Prop :=
  p = base ∨ leadsList (base ++ "/").data p.data = true

instance (base p : String) : Decidable (isDescendantOf base p) := by
  unfold isDescendantOf; infer_instance

/-! ## `SFTP.get_files` callback paging (ssh.py lines 639-762)

The page loop transfers `f_names` in steps of `step` files and, while a
callback is live, offers each page to `callback.func`.  The Python local
variable `callback` is set to `None` as soon as one page errors (a raised
exception from `func`, or a handled count different from the page size);
transfers continue but the object is no longer touched.  After the loop
`callback.complete = True` runs only when the local variable is still
set.  The callback function is modelled as
`func : List String → Except Unit Nat` (an exception, or the count it
reports); page transfers themselves are assumed to succeed, which is the
situation the claim describes. -/

/-- Observable outcome of one `get_files` run on its callback object:
the `error` and `complete` flags, how many pages were offered to
`callback.func`, and how many pages were transferred. -/
structure CBRun where
  error : Bool
  complete : Bool
  offered : Nat
  transferred : Nat
deriving DecidableEq, Repr

/-- The `for i in range(0, len(f_names), step)` loop of `get_files`,
restricted to its callback bookkeeping.  `active` mirrors the local
variable `callback` still being non-`None`. -/
def getFilesPages (func : List String → Except Unit Nat) (active : Bool)
    (st : CBRun) : List (List String) → CBRun
  | [] => if active then { st with complete := true } else st
  | pg :: rest =>
    let st1 := { st with transferred := st.transferred + 1 }
    if active then
      let st2 := { st1 with offered := st1.offered + 1 }
      match func pg with
      | Except.ok n =>
        if n = pg.length then getFilesPages func true st2 rest
        else getFilesPages func false { st2 with error := true } rest
      | Except.error _ => getFilesPages func false { st2 with error := true } rest
    else getFilesPages func false st1 rest

/-- One whole `get_files` run over `pages`, starting from the reset the
source performs (`callback.error = False; callback.complete = False`). -/
def get_files_cb (func : List String → Except Unit Nat)
    (pages : List (List String)) : CBRun :=
  getFilesPages func true ⟨false, false, 0, 0⟩ pages

/-! ## `JobManager.store_files` (JobManager.py lines 993-1044)

`store_files` walks the descriptor mapping in sorted key order, calling
`store_file` for each entry.  A failing entry is logged, its
delete-after-success flag is forced to `False` in the mapping, and its
key is appended to `errList`; a succeeding entry records
`md5Map[remote_name] = md5`.  After the loop, any error raises
`SessionError` naming `errList`; otherwise the md5 mapping is returned.
`store_file` success is modelled by the oracle `ok` (local file exists
and the transfer runs to completion) and the computed checksum by
`md5f`. -/

/-- One entry of the transfer-descriptor mapping:
`key = (remote name, copy-to-workdir, delete-after-success)`. -/
structure StoreEntry where
  key : String
  remote : String
  copy : Bool
  delete : Bool
deriving DecidableEq, Repr

/-- Strict lexicographic order on code points, as Python compares
strings. -/
def charsLt : List Char → List Char → Bool
  | [], [] => false
  | [], _ :: _ => true
  | _ :: _, [] => false
  | a :: as2, b :: bs =>
    if a.toNat < b.toNat then true
    else if b.toNat < a.toNat then false
    else charsLt as2 bs

/-- `a <= b` on Python strings. -/
def strLe (a b : String) : Bool := ! charsLt b.data a.data

/-- Insert an entry into a key-sorted list, after any entry whose key is
not larger. -/
def insertEntry (e : StoreEntry) : List StoreEntry → List StoreEntry
  | [] => [e]
  | x :: xs => if strLe x.key e.key then x :: insertEntry e xs else e :: x :: xs

/-- `for key in sorted(files)`: iteration in ascending key order.  (The
keys of a Python dict are pairwise distinct, so any sort of the entries
by key gives the iteration order of the source.) -/
def sortEntries (files : List StoreEntry) : List StoreEntry :=
  files.foldl (fun acc e => insertEntry e acc) []

/-- The store loop over the (already sorted) entries.  Produces the
updated descriptor mapping, the accumulated md5 mapping and the error
list, in iteration order. -/
def storeLoop (ok : String → Bool) (md5f : String → String) :
    List StoreEntry → List StoreEntry × List (String × String) × List String
  | [] => ([], [], [])
  | e :: rest =>
    let (fs, ms, es) := storeLoop ok md5f rest
    if ok e.key then (e :: fs, (e.remote, md5f e.key) :: ms, es)
    else ({ e with delete := false } :: fs, ms, e.key :: es)

/-- Full result of a `store_files` call: the descriptor mapping as left
behind, the internal md5 mapping, and the error list. -/
structure StoreResult where
  files : List StoreEntry
  md5s : List (String × String)
  errList : List String
deriving DecidableEq, Repr

/-- `JobManager.store_files`, machine state after the call. -/
def store_files (ok : String → Bool) (md5f : String → String)
    (files : List StoreEntry) : StoreResult :=
  ⟨(storeLoop ok md5f (sortEntries files)).1,
   (storeLoop ok md5f (sortEntries files)).2.1,
   (storeLoop ok md5f (sortEntries files)).2.2⟩

/-- What the caller of `store_files` receives: the md5 mapping when every
entry succeeded, and a raised `SessionError` naming the failed keys
otherwise (a raising call returns nothing). -/
def store_files_result (ok : String → Bool) (md5f : String → String)
    (files : List StoreEntry) : Except (List String) (List (String × String)) :=
  let r := store_files ok md5f files
  if r.errList.isEmpty then Except.ok r.md5s else Except.error r.errList

/-! ## `SSH.__init__` and `JobManager.make_connection`
(ssh.py lines 75-126, JobManager.py lines 772-797)

`SSH.__init__` launches the master command `echo Y; cat > /dev/null`,
reads one character from its stdout and, when that character is not
`Y`, sets `_master = None` and raises `IOError("Unexpected return from
SSH master.")`.  `JobManager.make_connection` tries each candidate
machine, swallowing any per-machine exception, and raises
`JobManager.ConnectionError` only when every machine failed.  The
master's stdout is modelled by a string per machine. -/

/-- The error kinds on the connection path: the `IOError` raised by
`SSH.__init__` itself, and `JobManager.ConnectionError` raised by
`make_connection` after all machines failed. -/
inductive ConnErr where
  | ioError (msg : String)
  | connectionError
deriving DecidableEq, Repr

/-- A live SSH session (construction succeeded, master channel open). -/
structure SSHSession where
  hostname : String
deriving DecidableEq, Repr

/-- `SSH.__init__` handshake: `res` is what the master wrote to stdout;
`read(1)` takes its first character. -/
def ssh_init (hostname res : String) : Except ConnErr SSHSession :=
  if String.mk (res.data.take 1) = "Y" then Except.ok ⟨hostname⟩
  else Except.error (ConnErr.ioError "Unexpected return from SSH master.")

/-- `JobManager.make_connection`: machines paired with the stdout their
master command produced. -/
def make_connection : List (String × String) → Except ConnErr SSHSession
  | [] => Except.error ConnErr.connectionError
  | (m, res) :: rest =>
    match ssh_init m res with
    | Except.ok s => Except.ok s
    | Except.error _ => make_connection rest

/-! ## `JobManager.retrieve_dir` (JobManager.py lines 812-844)

Local-filesystem effects are recorded explicitly: directories created by
`os.mkdir`, the process working directory (`os.chdir`), copies and
moves.  The remote side is summarised by `matchCount`, the number of remote
files matching the pattern `dir_name + "/.*\.sdcopen"`; `get_files`
raises `RemoteFileError` exactly when no file matches
(ssh.py lines 663-667). -/

/-- Recorded local filesystem effects. -/
structure FState where
  dirsCreated : List String
  processCwd : String
  copies : List (String × String)
  moves : List (String × String)
deriving DecidableEq, Repr

/-- Error raised by a retrieval whose pattern matches nothing. -/
inductive RetrieveErr where
  | remoteFile (p : String)
deriving DecidableEq, Repr

/-- `JobManager.retrieve_dir`.  `pidSuffix` is `JobManager.dir_suffix()`
(".<pid>" on the scanner hosts). -/
def retrieve_dir (matchCount : Nat) (exportPath dirName pidSuffix : String)
    (extraDest : Option String) (st : FState) : FState × Except RetrieveErr Unit :=
  let currentPath := st.processCwd
  let retrieveTmp := pjoin (pdirname exportPath) ("mar_tmp_" ++ dirName ++ pidSuffix)
  let st1 := { st with dirsCreated := st.dirsCreated ++ [retrieveTmp],
                       processCwd := retrieveTmp }
  if matchCount = 0 then
    (st1, Except.error (RetrieveErr.remoteFile (dirName ++ "/.*\\.sdcopen")))
  else
    let st2 :=
      match extraDest with
      | none => st1
      | some d => { st1 with copies := st1.copies ++ [(retrieveTmp, d)] }
    let retrieveDest := pjoin exportPath (dirName ++ pidSuffix)
    ({ st2 with processCwd := currentPath,
                moves := st2.moves ++ [(retrieveTmp, retrieveDest)] },
     Except.ok ())

/-! ## `JobManager.__push` retry loop (JobManager.py lines 353-413)

Each execution of the push command either succeeds, fails with
`'Transient' in stderr`, or fails hard.  The loop keeps two counters:
`retries` starts at `SOFT_RETRIES` and is decremented (followed by a
5-second sleep) on a transient failure; `hard_failure` starts at
`HARD_RETRIES` and is decremented (followed by a 60-second sleep) on a
hard failure while it is still positive; a hard failure with the hard
budget exhausted breaks out.  After the loop, a non-zero last exit
status raises `PushError`. -/

/-- Outcome of one execution of the push command. -/
inductive PushOutcome where
  | success
  | transient
  | hard
deriving DecidableEq, Repr

/-- Observable trace of one `__push` call: executions of the command,
5-second sleeps, 60-second sleeps, and whether the last execution
succeeded (`ok = false` means `PushError` is raised). -/
structure PushTrace where
  execs : Nat
  softSleeps : Nat
  hardSleeps : Nat
  ok : Bool
deriving DecidableEq, Repr

/-- The `while retries > 0` loop of `__push`.  `f n` is the outcome of
the `n`-th execution (0-based). -/
def pushLoop (f : Nat → PushOutcome) (retries hardf : Nat) (tr : PushTrace) :
    PushTrace :=
  if retries = 0 then tr
  else
    let tr1 := { tr with execs := tr.execs + 1 }
    match f tr.execs with
    | PushOutcome.success => { tr1 with ok := true }
    | PushOutcome.transient =>
      pushLoop f (retries - 1) hardf { tr1 with softSleeps := tr1.softSleeps + 1, ok := false }
    | PushOutcome.hard =>
      if hardf = 0 then { tr1 with ok := false }
      else pushLoop f retries (hardf - 1) { tr1 with hardSleeps := tr1.hardSleeps + 1, ok := false }
termination_by (retries, hardf)
decreasing_by
  all_goals simp_all [Prod.lex_iff]
  · omega
  · omega

/-- One `JobManager.__push` call with soft budget `soft` (`SOFT_RETRIES`)
and hard budget `hard` (`HARD_RETRIES`). -/
def push_run (f : Nat → PushOutcome) (soft hard : Nat) : PushTrace :=
  pushLoop f soft hard ⟨0, 0, 0, false⟩

/-- The soft retry budget configured in site.py. -/
def SOFT_RETRIES : Nat := 12

/-- The hard retry budget configured in site.py. -/
def HARD_RETRIES : Nat := 15

/-! ## `SFTP._get_files` count verification (ssh.py lines 536-636)

After the three-stage pipeline finishes, the remote tar log and the
local tar log are reduced to entry counts (`counts[0]`, `counts[1]`).
A mismatch between the two raises `SessionError("Mis-match in files
count! ...")`; for a non-directory transfer a mismatch between the
local count and the requested list length raises
`SessionError("Wrong number of files transferred!")`. -/

/-- The `SessionError`s raised by the count verification. -/
inductive XferErr where
  | countMismatch (remote lcl : Nat)
  | wrongNumber
deriving DecidableEq, Repr

/-- Tail of `SFTP._get_files`: `remoteCount` / `localCount` are the
entry counts parsed from the two tar logs, `reqLen` is
`len(file_list)`, `dirXfer` the single-whole-directory flag, and `sz`
the byte count the call would return. -/
def get_files_check (remoteCount localCount reqLen : Nat) (dirXfer : Bool)
    (sz : Nat) : Except XferErr Nat :=
  if remoteCount ≠ localCount then
    Except.error (XferErr.countMismatch remoteCount localCount)
  else if localCount ≠ reqLen ∧ ¬ dirXfer then
    Except.error XferErr.wrongNumber
  else Except.ok sz

/-! ## `push_dir` fan-out under `JOB_GATE` (JobManager.py lines 285, 477-570)

`JOB_GATE = threading.BoundedSemaphore(value=6)` and every push unit
executes the push section inside `with JobManager.JOB_GATE`, so a unit
enters the section only after a successful semaphore acquire and the
`with` statement releases the slot unconditionally on exit (success or
exception).  The fan-out is modelled as a transition system over the
program counters of the spawned units: `0` = before the gate (waiting),
`1` = inside the push section, `2` = exited.  An `acquire` transition is
enabled only while fewer than `JOB_GATE_CAPACITY` units are inside. -/

/-- `threading.BoundedSemaphore(value=6)`. -/
def JOB_GATE_CAPACITY : Nat := 6

/-- Number of units currently executing the push section. -/
def inPushSection (pcs : List Nat) : Nat := pcs.countP (fun pc => pc = 1)

/-- Interleaving steps of the fan-out: any waiting unit may acquire the
gate while a slot is free; any unit inside the section may finish (or
fail) and release its slot. -/
inductive FanStep : List Nat → List Nat → Prop where
  | acquire (pcs : List Nat) (i : Nat) (hpc : pcs.get? i = some 0)
      (hgate : inPushSection pcs < JOB_GATE_CAPACITY) :
      FanStep pcs (pcs.set i 1)
  | release (pcs : List Nat) (i : Nat) (hpc : pcs.get? i = some 1) :
      FanStep pcs (pcs.set i 2)

/-- States reachable from the dispatch of `n` push units (all spawned
threads start before the gate). -/
inductive FanReach (n : Nat) : List Nat → Prop where
  | init : FanReach n (List.replicate n 0)
  | step {s t : List Nat} : FanReach n s → FanStep s t → FanReach n t

/-! ## `GetFilesCallback.__setattr__` (JobManager.py lines 87-146)

The immutable part of the object lives in the namedtuple
`self.__dict__['c']` (func, timeout, limit, desc); `__setattr__` lets
only `error` and `complete` through, and only with a value whose class
is exactly `bool`.  The callback function is identified by an id,
matching the fact that the model never calls it here. -/

/-- A Python value as far as `__setattr__` checks it: of class exactly
`bool`, or anything else. -/
inductive PyVal where
  | bool (b : Bool)
  | nonBool
deriving DecidableEq, Repr

/-- Attribute state of a `GetFilesCallback` object. -/
structure GFCallback where
  funcId : Nat
  limit : Int
  desc : String
  error : Bool
  complete : Bool
deriving DecidableEq, Repr

/-- `GetFilesCallback.__setattr__`: an `Except.error` is a raised
`AttributeError` carrying the message built by the source. -/
def cb_setattr (st : GFCallback) (attr : String) (v : PyVal) :
    Except String GFCallback :=
  if attr = "error" ∨ attr = "complete" then
    match v with
    | PyVal.bool b =>
      Except.ok (if attr = "error" then { st with error := b } else { st with complete := b })
    | PyVal.nonBool => Except.error ("[" ++ attr ++ "] must be bool")
  else Except.error ("[" ++ attr ++ "] does not exist or cannot change.")

/-! ## Helper lemmas -/

/-- The store loop leaves exactly the failed keys in the error list, in
iteration order. -/
theorem storeLoop_errList (ok : String → Bool) (md5f : String → String)
    (l : List StoreEntry) :
    (storeLoop ok md5f l).2.2 = (l.filter (fun e => ! ok e.key)).map (fun e => e.key) := by
  induction l with
  | nil => rfl
  | cons e rest ih =>
    simp only [storeLoop, List.filter_cons]
    cases h : ok e.key <;> simp [h, ih]

/-- The store loop records an md5 for exactly the succeeding entries, in
iteration order. -/
theorem storeLoop_md5s (ok : String → Bool) (md5f : String → String)
    (l : List StoreEntry) :
    (storeLoop ok md5f l).2.1
      = (l.filter (fun e => ok e.key)).map (fun e => (e.remote, md5f e.key)) := by
  induction l with
  | nil => rfl
  | cons e rest ih =>
    simp only [storeLoop, List.filter_cons]
    cases h : ok e.key <;> simp [h, ih]

/-- The store loop rewrites each failing entry's delete flag to `false`
and leaves succeeding entries untouched. -/
theorem storeLoop_files (ok : String → Bool) (md5f : String → String)
    (l : List StoreEntry) :
    (storeLoop ok md5f l).1
      = l.map (fun e => if ok e.key then e else { e with delete := false }) := by
  induction l with
  | nil => rfl
  | cons e rest ih =>
    simp only [storeLoop, List.map_cons]
    cases h : ok e.key <;> simp [h, ih]

/-- Closed form of the `__push` loop when every execution fails with a
transient error. -/
theorem pushLoop_transient_eq (soft hard : Nat) (tr : PushTrace) :
    pushLoop (fun _ => PushOutcome.transient) soft hard tr
      = { execs := tr.execs + soft, softSleeps := tr.softSleeps + soft,
          hardSleeps := tr.hardSleeps, ok := if soft = 0 then tr.ok else false } := by
  induction soft generalizing tr with
  | zero => rw [pushLoop]; simp
  | succ n ih =>
    rw [pushLoop]
    simp only [Nat.succ_ne_zero, if_neg, Nat.add_sub_cancel]
    rw [ih]
    simp only [if_neg (Nat.succ_ne_zero n)]
    cases n
    · simp
    · simp
      omega

/-- Closed form of the `__push` loop when every execution fails hard and
the soft budget is positive. -/
theorem pushLoop_hard_eq (hard soft : Nat) (tr : PushTrace) (h : soft ≠ 0) :
    pushLoop (fun _ => PushOutcome.hard) soft hard tr
      = { execs := tr.execs + hard + 1, softSleeps := tr.softSleeps,
          hardSleeps := tr.hardSleeps + hard, ok := false } := by
  induction hard generalizing tr with
  | zero => rw [pushLoop]; simp [h]
  | succ n ih =>
    rw [pushLoop]
    simp only [if_neg h, Nat.succ_ne_zero, Nat.add_sub_cancel]
    rw [ih]
    simp
    omega

/-- Updating one position of a list shifts `countP` by the difference
between the new and the old element's contribution. -/
theorem countP_set_balance (p : Nat → Bool) (l : List Nat) (i a b : Nat)
    (h : l.get? i = some a) :
    (l.set i b).countP p + (if p a then 1 else 0)
      = l.countP p + (if p b then 1 else 0) := by
  induction l generalizing i with
  | nil => simp at h
  | cons x xs ih =>
    cases i with
    | zero =>
      simp at h
      subst h
      simp [List.countP_cons]
      omega
    | succ j =>
      simp at h
      have := ih j (by simpa using h)
      simp [List.countP_cons, this]
      omega

/-- No spawned unit starts inside the push section. -/
theorem countP_replicate_zero (n : Nat) :
    (List.replicate n 0).countP (fun pc => pc = 1) = 0 := by
  induction n with
  | zero => rfl
  | succ k ih => simp [List.replicate_succ, List.countP_cons, ih]

/-! ## Claims -/

/-- C1: the specification claims every `enter_dir` argument resolving
outside the session base raises the confinement `SessionError` and
leaves the current directory unchanged.  The code only rejects a
resolution whose path is SHORTER than the base
(`len(dir_name) < len(self.base)`, JobManager.py line 637), so a `..`
argument resolving to a sibling whose name is at least as long as the
base is accepted: from base `/home/user`, `enter_dir("../evil_dir_x")`
succeeds (remote probes succeeding) and moves `cwd` to
`/home/evil_dir_x`, which is not a descendant of the base — contradicting
the code's own error message ("Tried to escape starting directory!") and
the intent recorded at JobManager.py line 795. -/
theorem enter_dir_escapes_base :
    enter_dir (fun _ => true) (fun _ => true) ⟨"/home/user", "/home/user"⟩ "../evil_dir_x"
      = (⟨"/home/user", "/home/evil_dir_x"⟩, Except.ok "/home/evil_dir_x")
    ∧ ¬ isDescendantOf "/home/user" "/home/evil_dir_x" :=
  ⟨rfl, by decide⟩

/-- C2: the specification claims `complete` becomes true even when a
page errored and later pages were only transferred.  In the code
(ssh.py line 726) the local `callback` variable is set to `None` on the
first erroring page, so the final `callback.complete = True`
(ssh.py line 734) never runs: after an error on the first of two pages,
both pages are transferred, only one was offered, `error` is true and
`complete` stays false — contradicting the `GetFilesCallback` docstring
("complete: ... Set True when run (possibly errored)"). -/
theorem get_files_errored_callback_not_completed :
    get_files_cb (fun _ => Except.error ()) [["f1"], ["f2"]]
      = { error := true, complete := false, offered := 1, transferred := 2 } :=
  rfl

/-- C3 counterexample: a 3-entry batch in which only `b` fails.  The
call raises `SessionError` listing exactly `b` — and therefore returns
nothing: the md5 mapping for `a` and `c` exists only in the internal
`md5s` accumulator and never reaches the caller. -/
theorem store_files_mixed_batch_returns_nothing :
    store_files_result (fun k => k != "b") (fun k => k ++ "-md5")
        [⟨"a", "ra", false, false⟩, ⟨"b", "rb", false, true⟩, ⟨"c", "rc", false, true⟩]
      = Except.error ["b"]
    ∧ (store_files (fun k => k != "b") (fun k => k ++ "-md5")
        [⟨"a", "ra", false, false⟩, ⟨"b", "rb", false, true⟩, ⟨"c", "rc", false, true⟩]).md5s
      = [("ra", "a-md5"), ("rc", "c-md5")] :=
  ⟨rfl, rfl⟩

/-- C3 (amended): `store_files` attempts every entry (the error list is
the full set of failed keys, in iteration order) and, when any entry
failed, raises `SessionError` listing exactly the failed entries; the
checksums of the succeeding entries are recorded in the internal md5
mapping but are returned to the caller only when no entry failed. -/
theorem store_files_error_accounting (ok : String → Bool) (md5f : String → String)
    (files : List StoreEntry) :
    (store_files ok md5f files).errList
      = ((sortEntries files).filter (fun e => ! ok e.key)).map (fun e => e.key)
    ∧ (store_files ok md5f files).md5s
      = ((sortEntries files).filter (fun e => ok e.key)).map (fun e => (e.remote, md5f e.key))
    ∧ store_files_result ok md5f files
      = (if (store_files ok md5f files).errList.isEmpty
         then Except.ok (store_files ok md5f files).md5s
         else Except.error (store_files ok md5f files).errList) :=
  ⟨storeLoop_errList ok md5f (sortEntries files),
   storeLoop_md5s ok md5f (sortEntries files),
   rfl⟩

/-- C4: after `store_files`, every entry whose transfer failed has its
delete-after-success flag forced to `false` (its other fields
untouched), and every entry whose transfer succeeded is unchanged. -/
theorem store_files_delete_flag (ok : String → Bool) (md5f : String → String)
    (files : List StoreEntry) :
    (store_files ok md5f files).files
      = (sortEntries files).map
          (fun e => if ok e.key then e else { e with delete := false }) :=
  storeLoop_files ok md5f (sortEntries files)

/-- C5 counterexample: a handshake that returns `N` instead of the
sentinel `Y` makes `SSH.__init__` raise `IOError("Unexpected return from
SSH master.")` — its docstring's documented behaviour — not a
`ConnectionError`. -/
theorem ssh_init_bad_sentinel :
    ssh_init "recon1" "N"
      = Except.error (ConnErr.ioError "Unexpected return from SSH master.")
    ∧ ssh_init "recon1" "N" ≠ Except.error ConnErr.connectionError := by
  refine ⟨rfl, ?_⟩
  intro h
  simp [ssh_init] at h

/-- C5 (amended): when the handshake does not return the sentinel,
`SSH.__init__` fails by raising `IOError` (no usable session object is
produced), and `JobManager.make_connection` raises
`JobManager.ConnectionError` once every candidate machine has failed
this way. -/
theorem ssh_init_failure_amended (hostname res : String)
    (machines : List (String × String))
    (hres : String.mk (res.data.take 1) ≠ "Y")
    (hall : ∀ p ∈ machines, String.mk (p.2.data.take 1) ≠ "Y") :
    ssh_init hostname res
      = Except.error (ConnErr.ioError "Unexpected return from SSH master.")
    ∧ make_connection machines = Except.error ConnErr.connectionError := by
  refine ⟨by simp [ssh_init, hres], ?_⟩
  induction machines with
  | nil => rfl
  | cons p rest ih =>
    obtain ⟨m, r⟩ := p
    have hp : String.mk (r.data.take 1) ≠ "Y" := hall (m, r) (by simp)
    rw [make_connection]
    simp [ssh_init, hp]
    exact ih (fun q hq => hall q (by simp [hq]))

/-- C5 witness: the amended statement evaluated at a concrete failed
handshake and a concrete machine list. -/
theorem ssh_init_failure_amended_witness :
    ssh_init "recon1" "N"
      = Except.error (ConnErr.ioError "Unexpected return from SSH master.")
    ∧ make_connection [("recon1", "N"), ("recon2", "")]
      = Except.error ConnErr.connectionError :=
  ssh_init_failure_amended "recon1" "N" [("recon1", "N"), ("recon2", "")]
    (by decide) (by decide)

/-- C6 counterexample: a retrieval whose pattern matches zero remote
files raises `RemoteFileError`, but only after `retrieve_dir` has
already created the staging directory (JobManager.py line 829 runs
before the transfer), which is left behind — together with the process
still chdir-ed into it. -/
theorem retrieve_dir_zero_match_staging_left :
    retrieve_dir 0 "/export/home1/sdc_image_pool/import/" "job7" ".1234" none
        ⟨[], "/usr/g/mrraw", [], []⟩
      = (⟨["/export/home1/sdc_image_pool/import/mar_tmp_job7.1234"],
          "/export/home1/sdc_image_pool/import/mar_tmp_job7.1234", [], []⟩,
         Except.error (RetrieveErr.remoteFile "job7/.*\\.sdcopen")) :=
  rfl

/-- C6 (amended): a retrieval whose pattern matches zero remote files
raises `RemoteFileError`, but the process-unique staging directory has
already been created by then and remains on disk (and the process
working directory remains inside it); the local filesystem is not
unchanged. -/
theorem retrieve_dir_zero_match_amended (exportPath dirName pidSuffix : String)
    (extraDest : Option String) (st : FState) :
    (retrieve_dir 0 exportPath dirName pidSuffix extraDest st).2
      = Except.error (RetrieveErr.remoteFile (dirName ++ "/.*\\.sdcopen"))
    ∧ pjoin (pdirname exportPath) ("mar_tmp_" ++ dirName ++ pidSuffix)
        ∈ (retrieve_dir 0 exportPath dirName pidSuffix extraDest st).1.dirsCreated
    ∧ (retrieve_dir 0 exportPath dirName pidSuffix extraDest st).1.processCwd
      = pjoin (pdirname exportPath) ("mar_tmp_" ++ dirName ++ pidSuffix) := by
  refine ⟨rfl, ?_, rfl⟩
  simp [retrieve_dir]

/-- C7 counterexample: with a soft budget of 2 and a hard budget of 3,
a transient-only failing command is executed twice — one retry after
the initial attempt, not the two retries the claim requires — while a
hard-only failing command is executed four times — three retries, which
matches the hard budget as a retry count but not as an execution count.
No reading of "retried exactly the budget" satisfies both scenarios. -/
theorem push_retry_counts_concrete :
    (push_run (fun _ => PushOutcome.transient) 2 3).execs = 2
    ∧ (push_run (fun _ => PushOutcome.transient) 2 3).execs - 1 ≠ 2
    ∧ (push_run (fun _ => PushOutcome.hard) 2 3).execs = 4
    ∧ (push_run (fun _ => PushOutcome.hard) 2 3).execs ≠ 3 := by
  have ht := pushLoop_transient_eq 2 3 ⟨0, 0, 0, false⟩
  have hh := pushLoop_hard_eq 3 2 ⟨0, 0, 0, false⟩ (by decide)
  unfold push_run
  rw [ht, hh]
  refine ⟨rfl, by decide, rfl, by decide⟩

/-- C7 (amended): a push whose executions all fail transiently runs the
command exactly `SOFT_RETRIES` times (one initial attempt plus
`SOFT_RETRIES - 1` retries) with one 5-second delay per failure and no
60-second delay, then raises `PushError`; a push whose executions all
fail hard runs the command exactly `HARD_RETRIES + 1` times
(`HARD_RETRIES` retries) with one 60-second delay per retried failure
and no 5-second delay, then raises `PushError`. -/
theorem push_retry_budgets (soft hard : Nat) (hsoft : 1 ≤ soft) :
    push_run (fun _ => PushOutcome.transient) soft hard
      = { execs := soft, softSleeps := soft, hardSleeps := 0, ok := false }
    ∧ push_run (fun _ => PushOutcome.hard) soft hard
      = { execs := hard + 1, softSleeps := 0, hardSleeps := hard, ok := false } := by
  constructor
  · rw [push_run, pushLoop_transient_eq]
    simp
  · rw [push_run, pushLoop_hard_eq _ _ _ (by omega)]
    simp

/-- C7 witness: the amended statement at the budgets configured in
site.py (`SOFT_RETRIES = 12`, `HARD_RETRIES = 15`). -/
theorem push_retry_budgets_witness :
    push_run (fun _ => PushOutcome.transient) SOFT_RETRIES HARD_RETRIES
      = { execs := 12, softSleeps := 12, hardSleeps := 0, ok := false }
    ∧ push_run (fun _ => PushOutcome.hard) SOFT_RETRIES HARD_RETRIES
      = { execs := 16, softSleeps := 0, hardSleeps := 15, ok := false } :=
  push_retry_budgets SOFT_RETRIES HARD_RETRIES (by decide)

/-- C8: the count verification of `_get_files` never silently tolerates
a mismatch: a remote/local entry-count difference always raises the
count-mismatch `SessionError`; for a non-directory transfer a local
count differing from the requested list length always raises the
wrong-number `SessionError`; and the call returns a byte count only
when the remote and local counts agree and (unless a whole directory
was transferred) match the requested list length. -/
theorem get_files_count_checks (remoteCount localCount reqLen : Nat)
    (dirXfer : Bool) (sz : Nat) :
    (remoteCount ≠ localCount →
      get_files_check remoteCount localCount reqLen dirXfer sz
        = Except.error (XferErr.countMismatch remoteCount localCount))
    ∧ (remoteCount = localCount → dirXfer = false → localCount ≠ reqLen →
      get_files_check remoteCount localCount reqLen dirXfer sz
        = Except.error XferErr.wrongNumber)
    ∧ (∀ k, get_files_check remoteCount localCount reqLen dirXfer sz = Except.ok k →
        remoteCount = localCount ∧ (dirXfer = true ∨ localCount = reqLen)) := by
  refine ⟨fun h => by simp [get_files_check, h], fun h hd hn => ?_, fun k hk => ?_⟩
  · simp [get_files_check, h, hd, hn]
  · unfold get_files_check at hk
    split at hk
    · exact absurd hk (by simp)
    · split at hk
      · exact absurd hk (by simp)
      · rename_i h1 h2
        push_neg at h1 h2
        rcases Decidable.em (localCount = reqLen) with he | he
        · exact ⟨h1, Or.inr he⟩
        · exact ⟨h1, Or.inl (by simpa using h2 he)⟩

/-- C8 witness: both raising branches of the verification evaluated at
concrete counts. -/
theorem get_files_count_checks_witness :
    get_files_check 3 5 5 false 1000 = Except.error (XferErr.countMismatch 3 5)
    ∧ get_files_check 4 4 7 false 1000 = Except.error XferErr.wrongNumber :=
  ⟨(get_files_count_checks 3 5 5 false 1000).1 (by decide),
   (get_files_count_checks 4 4 7 false 1000).2.1 rfl rfl (by decide)⟩

/-- C9: for any number of spawned push units, every state reachable by
interleaving gate acquisitions (blocked while the gate is full) and
unconditional releases keeps at most `JOB_GATE_CAPACITY = 6` units
inside the push section at a time. -/
theorem push_fanout_gate_bound (n : Nat) (s : List Nat) (h : FanReach n s) :
    inPushSection s ≤ JOB_GATE_CAPACITY := by
  induction h with
  | init =>
    simp [inPushSection, countP_replicate_zero, JOB_GATE_CAPACITY]
  | step _ hstep ih =>
    cases hstep with
    | acquire i hpc hgate =>
      rename_i pcs hreach
      have hb := countP_set_balance (fun pc => pc = 1) pcs i 0 1 hpc
      simp only [inPushSection, JOB_GATE_CAPACITY] at *
      simp at hb
      omega
    | release i hpc =>
      rename_i pcs hreach
      have hb := countP_set_balance (fun pc => pc = 1) pcs i 1 2 hpc
      simp only [inPushSection, JOB_GATE_CAPACITY] at *
      simp at hb
      omega

/-- C9 witness: the bound evaluated on a concrete reachable state of a
7-destination fan-out in which one unit has acquired the gate. -/
theorem push_fanout_gate_bound_witness :
    inPushSection ((List.replicate 7 0).set 0 1) ≤ JOB_GATE_CAPACITY :=
  push_fanout_gate_bound 7 _
    (FanReach.step FanReach.init
      (FanStep.acquire (List.replicate 7 0) 0 (by decide) (by decide)))

/-- C10: `GetFilesCallback.__setattr__` raises `AttributeError` for any
attribute other than `error` / `complete`, raises `AttributeError` when
the assigned value's class is not exactly `bool`, and any assignment
that succeeds leaves the immutable `func`, `limit` and `desc` fields of
the object untouched. -/
theorem cb_setattr_contract (st : GFCallback) (attr : String) (v : PyVal) :
    (attr ≠ "error" → attr ≠ "complete" →
      cb_setattr st attr v
        = Except.error ("[" ++ attr ++ "] does not exist or cannot change."))
    ∧ (v = PyVal.nonBool → ∀ st2, cb_setattr st attr v ≠ Except.ok st2)
    ∧ (∀ st2, cb_setattr st attr v = Except.ok st2 →
        st2.funcId = st.funcId ∧ st2.limit = st.limit ∧ st2.desc = st.desc) := by
  refine ⟨fun h1 h2 => by simp [cb_setattr, h1, h2], fun hv st2 => ?_, fun st2 hok => ?_⟩
  · subst hv
    unfold cb_setattr
    split
    · simp
    · simp
  · unfold cb_setattr at hok
    split at hok
    · cases v with
      | bool b =>
        simp at hok
        subst hok
        split
        · exact ⟨rfl, rfl, rfl⟩
        · exact ⟨rfl, rfl, rfl⟩
      | nonBool => simp at hok
    · simp at hok

/-- C10 witness: the contract evaluated at a concrete callback object
for a forbidden attribute, a non-bool value, and a succeeding
assignment. -/
theorem cb_setattr_contract_witness :
    cb_setattr ⟨1, 512, "push", false, false⟩ "limit" (PyVal.bool true)
      = Except.error "[limit] does not exist or cannot change."
    ∧ (∀ st2, cb_setattr ⟨1, 512, "push", false, false⟩ "error" PyVal.nonBool
        ≠ Except.ok st2)
    ∧ (⟨1, 512, "push", true, false⟩ : GFCallback).funcId = 1 :=
  ⟨(cb_setattr_contract ⟨1, 512, "push", false, false⟩ "limit" (PyVal.bool true)).1
      (by decide) (by decide),
   (cb_setattr_contract ⟨1, 512, "push", false, false⟩ "error" PyVal.nonBool).2.1 rfl,
   ((cb_setattr_contract ⟨1, 512, "push", false, false⟩ "error" (PyVal.bool true)).2.2
      ⟨1, 512, "push", true, false⟩ rfl).1⟩

end Autorec
